import Mathlib

set_option maxRecDepth 8000

namespace SmartStore

/-!
Shallow embedding of the SmartStore dashboard's resilient streaming client
(the Monitoring page) and of the API client's event-source URL construction.

The Monitoring page keeps these variables: `eventSource` (the current
EventSource handle), `connected` (boolean), `metrics` (the activity log,
newest-first), and `stats` (a JSON object holding the running snapshot).
`connectSSE` opens a transport and installs listeners; the listeners for
`initial_stats`, unnamed `message` and `heartbeat` events, `onopen`,
`onerror`, plus `addMetric` and `disconnect`, are embedded below as a step
function on an explicit state.  Transport handles are modelled by numeric
ids so that "how many live (unclosed) transports exist" is observable;
pending reconnect timers are modelled as a list of scheduled delays in
milliseconds.  JSON.parse is a browser builtin, so a frame's payload is
modelled as the parse result the platform would deliver: either a parsed
JSON object or a parse failure carrying the raw text.
-/

/-- JSON values as delivered by JSON.parse (numbers as rationals,
since JSON number literals are decimal). -/
inductive JsonValue where
  | null : JsonValue
  | bool (b : Bool) : JsonValue
  | num (q : Rat) : JsonValue
  | str (s : String) : JsonValue
deriving DecidableEq

/-- A JSON object: an ordered list of key/value pairs. -/
abbrev JsonObj := List (String × JsonValue)

/-- Property lookup `o[k]`: the value of the first entry with key `k`,
or `none` when the key is absent (JavaScript `undefined`). -/
def getKey (m : JsonObj) (k : String) : Option JsonValue :=
  (m.find? fun p => p.1 == k).map Prod.snd

/-- JavaScript property assignment `o[k] = v`: overwrite the entry in
place when the key exists, otherwise append it (insertion order). -/
def setKey (m : JsonObj) (k : String) (v : JsonValue) : JsonObj :=
  if m.any fun p => p.1 == k then
    m.map fun p => if p.1 == k then (k, v) else p
  else m ++ [(k, v)]

/-- Object spread `\x7b ...base, ...d \x7d`: assign every entry of `d`
over a copy of `base`, in order. -/
def spreadMerge (base d : JsonObj) : JsonObj :=
  d.foldl (fun acc p => setKey acc p.1 p.2) base

/-- JavaScript truthiness of a property access result
(`undefined`, `null`, `false`, `0` and `""` are falsy). -/
def truthy : Option JsonValue → Bool
  | none => false
  | some JsonValue.null => false
  | some (JsonValue.bool b) => b
  | some (JsonValue.num q) => decide (q ≠ 0)
  | some (JsonValue.str s) => decide (s ≠ "")

/-- Template-literal stringification of a property access result
(numeric rendering is modelled by Rat's toString). -/
def jsToString : Option JsonValue → String
  | none => "undefined"
  | some JsonValue.null => "null"
  | some (JsonValue.bool b) => if b then "true" else "false"
  | some (JsonValue.num q) => toString q
  | some (JsonValue.str s) => s

/-- One entry of the activity log, as built by `addMetric`:
`\x7b timestamp, message, type \x7d`. -/
structure LogEntry where
  timestamp : Nat
  message : String
  type : String
deriving DecidableEq

/-- The list update performed by `addMetric`:
`metrics = [\x7btimestamp, message, type\x7d, ...metrics.slice(0, 99)]`. -/
def addMetric (message ty : String) (now : Nat) (log : List LogEntry) : List LogEntry :=
  { timestamp := now, message := message, type := ty } :: log.take 99

/-- Folding a sequence of messages through `addMetric` starting from the
empty log (all with severity "info", as the page's default). -/
def appendRun (now : Nat) (msgs : List String) : List LogEntry :=
  msgs.foldl (fun log m => addMetric m "info" now log) []

/-- The Monitoring page's mutable variables, with transport handles made
explicit: `live` holds the ids of EventSource objects created and not yet
closed; `pendingReconnects` holds the delays of scheduled reconnect
timers (the code never stores or clears the timeout handle); `now` is the
wall clock read for timestamps. -/
structure MonState where
  eventSource : Option Nat
  connected : Bool
  metrics : List LogEntry
  stats : JsonObj
  live : List Nat
  pendingReconnects : List Nat
  nextId : Nat
  now : Nat
deriving DecidableEq

/-- Result of delivering one event: the updated state, and whether the
handler threw an uncaught exception (which the browser swallows at the
event loop without touching the page's variables or the connection). -/
structure StepOut where
  state : MonState
  uncaught : Bool
deriving DecidableEq

/-- A frame's data text as seen through the platform's JSON.parse:
either a parsed object, or a parse failure carrying the raw text. -/
inductive ParseResult where
  | ok (data : JsonObj) : ParseResult
  | err (raw : String) : ParseResult
deriving DecidableEq

/-- The events the page reacts to: the user's Connect/Disconnect clicks,
the transport's open/error callbacks, the three named stream channels,
and a scheduled reconnect timer firing. -/
inductive Event where
  | userConnect : Event
  | esOpen : Event
  | initialStats (p : ParseResult) : Event
  | message (p : ParseResult) : Event
  | heartbeat (raw : String) : Event
  | esError : Event
  | timerFire : Event
  | userDisconnect : Event
deriving DecidableEq

/-- The page's initial `stats` object: the four recognized metric fields,
each defaulting to 0. -/
def statsInit : JsonObj :=
  [("total_keys", JsonValue.num 0), ("cache_hit_rate", JsonValue.num 0),
   ("avg_response_time_ms", JsonValue.num 0), ("requests_per_second", JsonValue.num 0)]

/-- The page's state before `onMount`. -/
def initState : MonState :=
  { eventSource := none, connected := false, metrics := [], stats := statsInit,
    live := [], pendingReconnects := [], nextId := 0, now := 0 }

/-- `addMetric` as a state transformer (timestamp read from the clock). -/
def addMetricS (message ty : String) (s : MonState) : MonState :=
  { s with metrics := addMetric message ty s.now s.metrics }

/-- `connectSSE`'s transport creation:
`eventSource = api.createEventSource('/streaming/metrics')` constructs a
fresh EventSource (it never throws for this URL, so the surrounding
try/catch's failure branch is unreachable) and overwrites the handle
variable; the previous object, if any, is not closed. -/
def connectSSE (s : MonState) : MonState :=
  { s with eventSource := some s.nextId, live := s.nextId :: s.live,
           nextId := s.nextId + 1 }

/-- `eventSource.close()` on the current handle (the listeners only run
while a handle exists, so the no-handle case is vacuous). -/
def closeCurrent (s : MonState) : MonState :=
  { s with live := match s.eventSource with
                   | none => s.live
                   | some id => s.live.erase id }

/-- The `onerror` handler: `connected = false`, append the error notice,
close the transport, and schedule `connectSSE` to run after 3000 ms
(the timeout handle is discarded, so nothing can ever clear it). -/
def onError (s : MonState) : MonState :=
  let s1 := addMetricS "✗ Connection lost, reconnecting..." "error"
              { s with connected := false }
  let s2 := closeCurrent s1
  { s2 with pendingReconnects := s2.pendingReconnects ++ [3000] }

/-- The `initial_stats` listener: `JSON.parse(event.data)` throws on
invalid JSON before any mutation; on success the payload is spread over
`stats` and an informational notice is appended. -/
def onInitialStats (s : MonState) (p : ParseResult) : StepOut :=
  match p with
  | ParseResult.err _ => ⟨s, true⟩
  | ParseResult.ok d =>
      ⟨addMetricS "Initial stats received" "info" { s with stats := spreadMerge s.stats d }, false⟩

/-- The unnamed `message` listener: parse (throwing on invalid JSON),
then append a `metric: value` notice when `data.metric` is truthy, and
spread the whole payload over `stats` when
`data.cache_hit_rate !== undefined`. -/
def onMessage (s : MonState) (p : ParseResult) : StepOut :=
  match p with
  | ParseResult.err _ => ⟨s, true⟩
  | ParseResult.ok d =>
      let s1 := if truthy (getKey d "metric") then
          addMetricS (jsToString (getKey d "metric") ++ ": " ++ jsToString (getKey d "value")) "info" s
        else s
      let s2 := if (getKey d "cache_hit_rate").isSome then
          { s1 with stats := spreadMerge s1.stats d }
        else s1
      ⟨s2, false⟩

/-- `disconnect()`: when a handle exists, close it, clear `connected`,
and append the warning notice; the handle variable is not nulled and
pending reconnect timers are not touched. -/
def disconnect (s : MonState) : MonState :=
  match s.eventSource with
  | none => s
  | some id =>
      addMetricS "Disconnected from stream" "warning"
        { s with live := s.live.erase id, connected := false }

/-- A scheduled reconnect timer firing: its callback is `connectSSE()`. -/
def reconnectTimerFire (s : MonState) : MonState :=
  match s.pendingReconnects with
  | [] => s
  | _ :: rest => connectSSE { s with pendingReconnects := rest }

/-- Delivering one event to the page. -/
def step (s : MonState) (e : Event) : StepOut :=
  match e with
  | Event.userConnect => ⟨connectSSE s, false⟩
  | Event.esOpen =>
      ⟨addMetricS "✓ Connected to real-time stream" "success" { s with connected := true }, false⟩
  | Event.initialStats p => onInitialStats s p
  | Event.message p => onMessage s p
  | Event.heartbeat _ => ⟨s, false⟩
  | Event.esError => ⟨onError s, false⟩
  | Event.timerFire => ⟨reconnectTimerFire s, false⟩
  | Event.userDisconnect => ⟨disconnect s, false⟩

/-- Delivering a sequence of events in arrival order (an uncaught
exception in one handler does not stop later events). -/
def run (s : MonState) (es : List Event) : MonState :=
  es.foldl (fun st e => (step st e).state) s

/-- The spec's ConnectionState. -/
inductive ConnState where
  | Disconnected : ConnState
  | Connecting : ConnState
  | Connected : ConnState
  | ReconnectScheduled : ConnState
deriving DecidableEq

/-- Abstraction of the page's concrete variables to the spec's
ConnectionState: a pending reconnect timer means ReconnectScheduled; an
open transport (`connected`) means Connected; a created, not-yet-open,
unclosed transport means Connecting; otherwise Disconnected. -/
def connState (s : MonState) : ConnState :=
  if s.pendingReconnects ≠ [] then ConnState.ReconnectScheduled
  else if s.connected then ConnState.Connected
  else match s.eventSource with
       | none => ConnState.Disconnected
       | some id => if id ∈ s.live then ConnState.Connecting else ConnState.Disconnected

/-- The API base URL (the fallback used when VITE_API_URL is unset). -/
def API_BASE_URL : String := "http://localhost:8000/api/v1"

/-- Template-literal interpolation of `localStorage.getItem("token")`,
which is a string or null: JavaScript stringifies null to "null". -/
def templateStr : Option String → String
  | none => "null"
  | some s => s

/-- `api.createEventSource(endpoint)`: the URL handed to
`new EventSource`, built from the stored token (possibly absent). -/
def createEventSourceUrl (endpoint : String) (token : Option String) : String :=
  API_BASE_URL ++ endpoint ++ "?token=" ++ templateStr token

/-! Lookup facts about JavaScript property assignment and object spread. -/

theorem getKey_cons (x : String × JsonValue) (l : JsonObj) (k : String) :
    getKey (x :: l) k = if (x.1 == k) = true then some x.2 else getKey l k := by
  cases hk : x.1 == k with
  | true =>
    have hfind : List.find? (fun p => p.1 == k) (x :: l) = some x :=
      List.find?_cons_of_pos l (by simpa using hk)
    simp [getKey, hfind, hk]
  | false =>
    have hfind : List.find? (fun p => p.1 == k) (x :: l) = List.find? (fun p => p.1 == k) l :=
      List.find?_cons_of_neg l (by simp [hk])
    simp [getKey, hfind, hk]

theorem getKey_setKey_self (m : JsonObj) (k : String) (v : JsonValue) :
    getKey (setKey m k v) k = some v := by
  unfold setKey
  split
  case isTrue h =>
    induction m with
    | nil => simp at h
    | cons hd tl ih =>
      cases hk : hd.1 == k with
      | true =>
        have hd1 : hd.1 = k := by simpa using hk
        simp [List.map_cons, getKey_cons, hd1]
      | false =>
        simp only [List.any_cons, hk, Bool.false_or] at h
        simp only [List.map_cons, hk, Bool.false_eq_true, if_false, getKey_cons]
        exact ih h
  case isFalse h =>
    induction m with
    | nil => simp [getKey]
    | cons hd tl ih =>
      simp only [List.any_cons, Bool.or_eq_true, not_or, Bool.not_eq_true] at h
      simp only [List.cons_append, getKey_cons, h.1, Bool.false_eq_true, if_false]
      exact ih (by simp [h.2])

theorem getKey_setKey_ne (m : JsonObj) (k1 k : String) (v : JsonValue)
    (hne : (k1 == k) = false) :
    getKey (setKey m k1 v) k = getKey m k := by
  unfold setKey
  split
  case isTrue h =>
    clear h
    induction m with
    | nil => rfl
    | cons hd tl ih =>
      cases hk : hd.1 == k1 with
      | true =>
        have hd1 : hd.1 = k1 := by simpa using hk
        have hdk : (hd.1 == k) = false := by
          rw [hd1]
          exact hne
        simp only [List.map_cons, hk, if_true, getKey_cons, hne, hdk,
          Bool.false_eq_true, if_false]
        exact ih
      | false =>
        simp only [List.map_cons, hk, Bool.false_eq_true, if_false, getKey_cons]
        cases hdk : hd.1 == k with
        | true => simp [hdk]
        | false => simp only [hdk, Bool.false_eq_true, if_false]; exact ih
  case isFalse h =>
    clear h
    induction m with
    | nil => simp [getKey, hne]
    | cons hd tl ih =>
      simp only [List.cons_append, getKey_cons]
      cases hdk : hd.1 == k with
      | true => simp [hdk]
      | false => simp only [hdk, Bool.false_eq_true, if_false]; exact ih

theorem getKey_spreadMerge_absent (d base : JsonObj) (k : String)
    (h : getKey d k = none) :
    getKey (spreadMerge base d) k = getKey base k := by
  induction d generalizing base with
  | nil => rfl
  | cons hd tl ih =>
    rw [getKey_cons] at h
    cases hk : hd.1 == k with
    | true => simp [hk] at h
    | false =>
      rw [if_neg (by simp [hk])] at h
      have hne : (hd.1 == k) = false := hk
      calc getKey (spreadMerge base (hd :: tl)) k
          = getKey (spreadMerge (setKey base hd.1 hd.2) tl) k := rfl
        _ = getKey (setKey base hd.1 hd.2) k := ih (setKey base hd.1 hd.2) h
        _ = getKey base k := getKey_setKey_ne base hd.1 k hd.2 hne

theorem getKey_spreadMerge_present (d base : JsonObj) (k : String) (v : JsonValue)
    (hnd : (d.map Prod.fst).Nodup) (h : getKey d k = some v) :
    getKey (spreadMerge base d) k = some v := by
  induction d generalizing base with
  | nil => simp [getKey] at h
  | cons hd tl ih =>
    simp only [List.map_cons, List.nodup_cons] at hnd
    rw [getKey_cons] at h
    cases hk : hd.1 == k with
    | true =>
      have hd1 : hd.1 = k := by simpa using hk
      rw [if_pos (by simp [hk])] at h
      have hv : hd.2 = v := by simpa using h
      have hfind : List.find? (fun p => p.1 == k) tl = none := by
        rw [List.find?_eq_none]
        intro p hp hc
        have hpk : p.1 = k := by simpa using hc
        have hmem : p.1 ∈ tl.map Prod.fst := List.mem_map_of_mem Prod.fst hp
        rw [hpk, ← hd1] at hmem
        exact hnd.1 hmem
      have htl : getKey tl k = none := by
        unfold getKey
        rw [hfind]
        rfl
      calc getKey (spreadMerge base (hd :: tl)) k
          = getKey (spreadMerge (setKey base hd.1 hd.2) tl) k := rfl
        _ = getKey (setKey base hd.1 hd.2) k :=
            getKey_spreadMerge_absent tl (setKey base hd.1 hd.2) k htl
        _ = some v := by rw [hd1, getKey_setKey_self, hv]
    | false =>
      rw [if_neg (by simp [hk])] at h
      exact ih (setKey base hd.1 hd.2) hnd.2 h

/-! Characterization of the unnamed message listener's two effects. -/

theorem onMessage_ok_stats (s : MonState) (d : JsonObj) :
    (step s (Event.message (ParseResult.ok d))).state.stats =
      if (getKey d "cache_hit_rate").isSome then spreadMerge s.stats d else s.stats := by
  by_cases h1 : truthy (getKey d "metric") = true <;>
    by_cases h2 : (getKey d "cache_hit_rate").isSome = true <;>
      simp [step, onMessage, addMetricS, h1, h2]

theorem onMessage_ok_metrics (s : MonState) (d : JsonObj) :
    (step s (Event.message (ParseResult.ok d))).state.metrics =
      if truthy (getKey d "metric") then
        addMetric (jsToString (getKey d "metric") ++ ": " ++ jsToString (getKey d "value"))
          "info" s.now s.metrics
      else s.metrics := by
  by_cases h1 : truthy (getKey d "metric") = true <;>
    by_cases h2 : (getKey d "cache_hit_rate").isSome = true <;>
      simp [step, onMessage, addMetricS, h1, h2]

theorem onInitialStats_ok_stats (s : MonState) (d : JsonObj) :
    (step s (Event.initialStats (ParseResult.ok d))).state.stats = spreadMerge s.stats d := rfl

/-! Concrete states and payloads used by the scenario theorems. -/

/-- The page right after a successful connect: `connectSSE` then `onopen`. -/
def exConnected : MonState := run initState [Event.userConnect, Event.esOpen]

/-- The baseline payload of the merge scenario. -/
def exInit : JsonObj :=
  [("total_keys", JsonValue.num 10), ("cache_hit_rate", JsonValue.num (1/2))]

/-- The delta payload of the merge scenario. -/
def exDelta : JsonObj := [("cache_hit_rate", JsonValue.num (9/10))]

/-- The state after the baseline `initial_stats` frame of the merge scenario. -/
def exAfterInit : MonState := (step exConnected (Event.initialStats (ParseResult.ok exInit))).state

/-- A payload carrying a key outside the fixed metric-name set. -/
def exExtra : JsonObj :=
  [("cache_hit_rate", JsonValue.num 1), ("widget_count", JsonValue.num 7)]

/-- 150 distinct messages; the 51st appended is "m50". -/
def exMsgs : List String := (List.range 150).map fun i => "m" ++ toString i

/-- C1 counterexample: a frame whose text is not valid JSON does not
produce a malformed marker — the message listener raises an uncaught
exception from JSON.parse and appends nothing, contradicting the claim
that a malformed marker is produced instead of raising. -/
theorem malformed_frame_no_marker :
    (step exConnected (Event.message (ParseResult.err "not valid json"))).uncaught = true ∧
    (step exConnected (Event.message (ParseResult.err "not valid json"))).state = exConnected :=
  ⟨rfl, rfl⟩

/-- C1 (amended): a frame whose text is not valid JSON makes the
`message` (and `initial_stats`) listener throw an uncaught exception from
JSON.parse; no malformed marker and no log entry is produced, the page's
state is untouched, the connection state is unchanged and the connection
is not torn down. -/
theorem malformed_frame_raises_unchanged (s : MonState) (raw : String) :
    step s (Event.message (ParseResult.err raw)) = ⟨s, true⟩ ∧
    step s (Event.initialStats (ParseResult.err raw)) = ⟨s, true⟩ ∧
    connState (step s (Event.message (ParseResult.err raw))).state = connState s ∧
    (step s (Event.message (ParseResult.err raw))).state.live = s.live :=
  ⟨rfl, rfl, rfl, rfl⟩

/-- C2: the code keeps no handle to the reconnect timeout, so
`disconnect()` cannot cancel it: after a transport error schedules the
3-second reconnect and the user disconnects, the timer is still pending,
it then fires a new connection attempt (a fresh live transport, state
Connecting), and a subsequent `onopen` appends to the log after the
disconnect. -/
theorem reconnect_timer_survives_disconnect :
    (run initState [Event.userConnect, Event.esOpen, Event.esError,
        Event.userDisconnect]).pendingReconnects = [3000] ∧
    connState (run initState [Event.userConnect, Event.esOpen, Event.esError,
        Event.userDisconnect, Event.timerFire]) = ConnState.Connecting ∧
    (run initState [Event.userConnect, Event.esOpen, Event.esError,
        Event.userDisconnect, Event.timerFire]).live.length = 1 ∧
    (run initState [Event.userConnect, Event.esOpen, Event.esError,
        Event.userDisconnect, Event.timerFire, Event.esOpen]).metrics.length =
      (run initState [Event.userConnect, Event.esOpen, Event.esError,
        Event.userDisconnect]).metrics.length + 1 := by
  decide

/-- C3 counterexample: after one `connectSSE()` the page is Connecting
with one live transport; a second `connectSSE()` leaves two live
transports, contradicting "exactly one live transport". -/
theorem double_connect_two_transports :
    connState (run initState [Event.userConnect]) = ConnState.Connecting ∧
    (run initState [Event.userConnect, Event.userConnect]).live.length = 2 := by
  decide

/-- C3 (amended): `connectSSE()` has no guard and is never a no-op: in
every state (including Connecting and Connected) it opens one more
transport and overwrites the handle variable, leaving every previously
live transport unclosed, so two successive calls leave two live
transports. -/
theorem connect_not_idempotent (s : MonState) :
    (step s Event.userConnect).state.live = s.nextId :: s.live ∧
    (step s Event.userConnect).state.eventSource = some s.nextId ∧
    (step s Event.userConnect).state.live.length = s.live.length + 1 :=
  ⟨rfl, rfl, by simp [step, connectSSE]⟩

/-- C8: a heartbeat event changes neither the stats snapshot nor the
connection state and appends no activity-log entry (the listener body is
empty). -/
theorem heartbeat_silent (s : MonState) (raw : String) :
    step s (Event.heartbeat raw) = ⟨s, false⟩ ∧
    (step s (Event.heartbeat raw)).state.stats = s.stats ∧
    (step s (Event.heartbeat raw)).state.metrics = s.metrics ∧
    connState (step s (Event.heartbeat raw)).state = connState s :=
  ⟨rfl, rfl, rfl, rfl⟩

/-- C10: with no stored token (`getToken()` returns null), the
EventSource URL is still built — the null token is stringified by the
template literal, so the query string contains the literal text
"token=null". -/
theorem null_token_stringified :
    createEventSourceUrl "/streaming/metrics" none
        = "http://localhost:8000/api/v1/streaming/metrics?token=null" ∧
    ∃ a b : String, createEventSourceUrl "/streaming/metrics" none = a ++ "token=null" ++ b := by
  refine ⟨rfl, "http://localhost:8000/api/v1/streaming/metrics?", "", ?_⟩
  rfl

/-- C4 counterexample: a payload carrying the recognized stat field
`total_keys` but no `cache_hit_rate` is not applied at all — the merge is
gated on `cache_hit_rate !== undefined` — so the snapshot keeps
`total_keys = 0` instead of 5, contradicting "any subset of the fixed
metric-name set is applied". -/
theorem recognized_field_not_merged :
    (step exConnected (Event.message (ParseResult.ok [("total_keys", JsonValue.num 5)]))).state
        = exConnected ∧
    getKey (step exConnected (Event.message
        (ParseResult.ok [("total_keys", JsonValue.num 5)]))).state.stats "total_keys"
        = some (JsonValue.num 0) ∧
    ¬ getKey (step exConnected (Event.message
        (ParseResult.ok [("total_keys", JsonValue.num 5)]))).state.stats "total_keys"
        = some (JsonValue.num 5) := by
  decide

/-- C4 (amended): for a decoded unnamed message payload, the delta merge
applies exactly when the payload has `cache_hit_rate` defined (then the
whole payload is spread into the snapshot), and an informational log
entry `metric: value` is appended exactly when the payload's `metric`
field is truthy; both effects may apply to the same event. -/
theorem message_event_effects (s : MonState) (d : JsonObj) :
    ((step s (Event.message (ParseResult.ok d))).state.stats =
      if (getKey d "cache_hit_rate").isSome then spreadMerge s.stats d else s.stats) ∧
    ((step s (Event.message (ParseResult.ok d))).state.metrics =
      if truthy (getKey d "metric") then
        addMetric (jsToString (getKey d "metric") ++ ": " ++ jsToString (getKey d "value"))
          "info" s.now s.metrics
      else s.metrics) :=
  ⟨onMessage_ok_stats s d, onMessage_ok_metrics s d⟩

/-! Shape of the bounded activity log after a sequence of appends. -/

theorem appendRun_concat (now : Nat) (msgs : List String) (m : String) :
    appendRun now (msgs ++ [m]) = addMetric m "info" now (appendRun now msgs) := by
  simp [appendRun, List.foldl_append]

theorem appendRun_messages (now : Nat) (msgs : List String) :
    (appendRun now msgs).map LogEntry.message = msgs.reverse.take 100 := by
  induction msgs using List.reverseRecOn with
  | nil => rfl
  | append_singleton l m ih =>
    rw [appendRun_concat]
    show (({ timestamp := now, message := m, type := "info" } : LogEntry)
        :: (appendRun now l).take 99).map LogEntry.message = _
    rw [List.map_cons, List.map_take, ih, List.take_take]
    have h1 : min 99 100 = 99 := by norm_num
    have h2 : (100 : Nat) = 99 + 1 := rfl
    rw [h1, List.reverse_append, List.reverse_singleton, List.singleton_append,
      h2, List.take_succ_cons]

theorem appendRun_length (now : Nat) (msgs : List String) :
    (appendRun now msgs).length = min msgs.length 100 := by
  calc (appendRun now msgs).length
      = ((appendRun now msgs).map LogEntry.message).length := (List.length_map _ _).symm
    _ = (msgs.reverse.take 100).length := by rw [appendRun_messages]
    _ = min 100 msgs.reverse.length := List.length_take _ _
    _ = min msgs.length 100 := by rw [List.length_reverse, Nat.min_comm]

/-- C5: after k `addMetric` appends the log holds exactly the most
recent min(k, 100) messages newest-first; after the 150 distinct appends
of `exMsgs` the log has length 100 and its last (oldest retained) entry
is the 51st message appended, "m50". -/
theorem activity_log_bounded :
    (∀ (now : Nat) (msgs : List String),
      (appendRun now msgs).map LogEntry.message = msgs.reverse.take 100) ∧
    (∀ (now : Nat) (msgs : List String),
      (appendRun now msgs).length = min msgs.length 100) ∧
    (appendRun 0 exMsgs).length = 100 ∧
    ((appendRun 0 exMsgs).getLast?).map LogEntry.message = some "m50" := by
  refine ⟨appendRun_messages, appendRun_length, by decide, by decide⟩

/-- C6: the merges performed by the `initial_stats` listener and by the
gated `message` listener are shallow — a field absent from the applied
payload keeps its pre-call value, a field present takes the payload's
value. -/
theorem stats_merge_shallow (s : MonState) (d : JsonObj)
    (hnd : (d.map Prod.fst).Nodup) :
    (∀ k, getKey d k = none →
      getKey (step s (Event.initialStats (ParseResult.ok d))).state.stats k
        = getKey s.stats k) ∧
    (∀ k v, getKey d k = some v →
      getKey (step s (Event.initialStats (ParseResult.ok d))).state.stats k = some v) ∧
    ((getKey d "cache_hit_rate").isSome = true →
      (∀ k, getKey d k = none →
        getKey (step s (Event.message (ParseResult.ok d))).state.stats k
          = getKey s.stats k) ∧
      (∀ k v, getKey d k = some v →
        getKey (step s (Event.message (ParseResult.ok d))).state.stats k = some v)) := by
  refine ⟨?_, ?_, ?_⟩
  · intro k hk
    rw [onInitialStats_ok_stats]
    exact getKey_spreadMerge_absent d s.stats k hk
  · intro k v hk
    rw [onInitialStats_ok_stats]
    exact getKey_spreadMerge_present d s.stats k v hnd hk
  · intro hchr
    constructor
    · intro k hk
      rw [onMessage_ok_stats, if_pos hchr]
      exact getKey_spreadMerge_absent d s.stats k hk
    · intro k v hk
      rw [onMessage_ok_stats, if_pos hchr]
      exact getKey_spreadMerge_present d s.stats k v hnd hk

/-- C6 witness: applying initial_stats {total_keys: 10, cache_hit_rate:
1/2} then the delta {cache_hit_rate: 9/10} yields total_keys = 10,
cache_hit_rate = 9/10, and the other two fields still 0. -/
theorem stats_merge_shallow_witness :
    (exDelta.map Prod.fst).Nodup ∧
    getKey (step exAfterInit (Event.message (ParseResult.ok exDelta))).state.stats
        "cache_hit_rate" = some (JsonValue.num (9/10)) ∧
    getKey (step exAfterInit (Event.message (ParseResult.ok exDelta))).state.stats
        "total_keys" = some (JsonValue.num 10) ∧
    getKey (step exAfterInit (Event.message (ParseResult.ok exDelta))).state.stats
        "avg_response_time_ms" = some (JsonValue.num 0) ∧
    getKey (step exAfterInit (Event.message (ParseResult.ok exDelta))).state.stats
        "requests_per_second" = some (JsonValue.num 0) := by
  have h := stats_merge_shallow exAfterInit exDelta (by decide)
  have h2 := h.2.2 (by decide)
  refine ⟨by decide, h2.2 "cache_hit_rate" (JsonValue.num (9/10)) rfl, ?_, ?_, ?_⟩
  · exact (h2.1 "total_keys" (by decide)).trans rfl
  · exact (h2.1 "avg_response_time_ms" (by decide)).trans rfl
  · exact (h2.1 "requests_per_second" (by decide)).trans rfl

/-- C7: on a transport error while Connected, exactly one error-severity
entry is appended, the state becomes ReconnectScheduled with a single
pending timer of exactly 3000 ms (no backoff growth, no retry cap), and
when that timer fires the page re-enters Connecting with no user
connect. -/
theorem transport_error_reconnect (s : MonState)
    (h : connState s = ConnState.Connected) :
    (step s Event.esError).state.metrics =
        addMetric "✗ Connection lost, reconnecting..." "error" s.now s.metrics ∧
    connState (step s Event.esError).state = ConnState.ReconnectScheduled ∧
    (step s Event.esError).state.pendingReconnects = [3000] ∧
    connState (step (step s Event.esError).state Event.timerFire).state
        = ConnState.Connecting := by
  have hp : s.pendingReconnects = [] := by
    by_contra hne
    simp [connState, hne] at h
  have e1 : (step s Event.esError).state.pendingReconnects = [3000] := by
    show s.pendingReconnects ++ [3000] = [3000]
    rw [hp]
    rfl
  have e3 : (step s Event.esError).state.connected = false := rfl
  refine ⟨rfl, ?_, e1, ?_⟩
  · simp [connState, e1]
  · show connState (reconnectTimerFire (step s Event.esError).state) = ConnState.Connecting
    unfold reconnectTimerFire
    rw [e1]
    simp [connState, connectSSE, e3]

/-- C7 witness: a concrete Connected page hit by a transport error. -/
theorem transport_error_reconnect_witness :
    connState exConnected = ConnState.Connected ∧
    (step exConnected Event.esError).state.pendingReconnects = [3000] ∧
    connState (step (step exConnected Event.esError).state Event.timerFire).state
        = ConnState.Connecting := by
  have h := transport_error_reconnect exConnected (by decide)
  exact ⟨by decide, h.2.2.1, h.2.2.2⟩

/-- C9: every key present in an initial_stats payload, or in a message
payload that is merged, is written into the snapshot — including keys
outside the fixed metric-name set. -/
theorem extra_fields_accepted (s : MonState) (d : JsonObj)
    (hnd : (d.map Prod.fst).Nodup) (k : String) (v : JsonValue)
    (hk : getKey d k = some v) :
    getKey (step s (Event.initialStats (ParseResult.ok d))).state.stats k = some v ∧
    ((getKey d "cache_hit_rate").isSome = true →
      getKey (step s (Event.message (ParseResult.ok d))).state.stats k = some v) := by
  constructor
  · rw [onInitialStats_ok_stats]
    exact getKey_spreadMerge_present d s.stats k v hnd hk
  · intro hchr
    rw [onMessage_ok_stats, if_pos hchr]
    exact getKey_spreadMerge_present d s.stats k v hnd hk

/-- C9 witness: the unrecognized key "widget_count" is added to the
snapshot by both the initial_stats path and the merged message path. -/
theorem extra_fields_accepted_witness :
    (exExtra.map Prod.fst).Nodup ∧
    getKey exExtra "widget_count" = some (JsonValue.num 7) ∧
    getKey (step exConnected (Event.initialStats (ParseResult.ok exExtra))).state.stats
        "widget_count" = some (JsonValue.num 7) ∧
    getKey (step exConnected (Event.message (ParseResult.ok exExtra))).state.stats
        "widget_count" = some (JsonValue.num 7) := by
  have h := extra_fields_accepted exConnected exExtra (by decide) "widget_count"
      (JsonValue.num 7) (by decide)
  exact ⟨by decide, by decide, h.1, h.2 (by decide)⟩

end SmartStore
